import Mathlib

/-!
# Verification of the resume-screener app (src/app.py)

Shallow embedding of the Streamlit resume-screener script. External effects
(PDF/DOCX parsing, UTF-8 decoding, OCR and the scoring model call) are
modelled as oracle functions returning `Option` values, where `none` stands
for a raised exception (the `except` branches of the source). All list and
string manipulation (extension dispatch, the evaluation loop, filtering,
sorting, export-row construction) is translated directly from the source.
-/

namespace ResumeScreener

/-- A record parsed from the scoring model's JSON response. The source reads
it as a Python dict via `.get` with defaults, so every field is optional
here; `none` models an absent key. -/
structure CandidateAnalysis where
  name : Option String
  email : Option String
  phone : Option String
  score : Option Int
  justification : Option String
  location : Option String
  matching_keywords : Option (List String)
deriving DecidableEq, Repr

/-- One entry of `st.session_state.results`:
`{"filename": file.name, "analysis": analysis}`. -/
structure ScreeningResult where
  filename : String
  analysis : CandidateAnalysis
deriving DecidableEq, Repr

/-- An uploaded file as the script sees it: a name and a declared MIME type.
The raw bytes are abstracted away; the byte-consuming operations are oracles
taking the whole file. -/
structure UploadedFile where
  name : String
  mime : String
deriving DecidableEq, Repr

/-- Oracles for the effectful parts of `get_file_text`. `none` models the
operation raising an exception (caught by the source's `except` branch):
`pdfPages` is PyMuPDF giving the per-page `get_text()` strings, in page
order; `docxParagraphs` is python-docx giving the per-paragraph `.text`
strings, in document order; `decodeUtf8` is `bytes.decode("utf-8")`;
`ocrText` is the Gemini OCR call's `response.text`. -/
structure ExtractOps where
  pdfPages : UploadedFile → Option (List String)
  docxParagraphs : UploadedFile → Option (List String)
  decodeUtf8 : UploadedFile → Option String
  ocrText : UploadedFile → Option String

/-- Python's `str.lower()`, modelled character-wise on the string's data. -/
def pyLower (s : String) : String :=
  String.mk (s.data.map Char.toLower)

/-- Python's `str.split(sep)` for a one-character separator, modelled on the
character list: splits at every occurrence of `sep`, keeping empty pieces,
and always returns a non-empty list of pieces. -/
def splitOnChar (sep : Char) : List Char → List (List Char)
  | [] => [[]]
  | c :: t =>
    if c = sep then
      [] :: splitOnChar sep t
    else
      match splitOnChar sep t with
      | [] => [[c]]
      | h :: r => (c :: h) :: r

/-- Python's substring test `needle in hay` on character lists: `true` iff
`needle` occurs contiguously in `hay` (the empty needle always occurs). -/
def dataContains (needle : List Char) : List Char → Bool
  | [] => needle.isEmpty
  | c :: t => needle.isPrefixOf (c :: t) || dataContains needle t

/-- Python's substring test `needle in hay` on strings. -/
def pyInStr (needle hay : String) : Bool :=
  dataContains needle.data hay.data

/-- The dot character, the separator in `name.split('.')`. -/
def dotChar : Char := Char.ofNat 46

/-- `uploaded_file.name.split('.')[-1].lower()`: the piece after the last
dot (the whole name when there is no dot), lower-cased. -/
def fileExtension (name : String) : String :=
  String.mk (((splitOnChar dotChar name.data).getLastD []).map Char.toLower)

/-- `get_file_text` from src/app.py lines 19-53. `text` starts as `""`; the
pdf branch concatenates page texts; the docx branch appends `para.text + "\n"`
for each paragraph; the txt branch decodes UTF-8; the image branch calls OCR;
any other extension falls through with `text` still `""`. A raised exception
anywhere yields `None` (here `none`). -/
def get_file_text (ops : ExtractOps) (f : UploadedFile) : Option String :=
  let ext := fileExtension f.name
  if ext = "pdf" then
    (ops.pdfPages f).map String.join
  else if ext = "docx" then
    (ops.docxParagraphs f).map (fun ps => String.join (ps.map (fun p => p ++ "\n")))
  else if ext = "txt" then
    ops.decodeUtf8 f
  else if ext = "png" ∨ ext = "jpg" ∨ ext = "jpeg" then
    ops.ocrText f
  else
    some ""

/-! ## Evaluation run (the "Evaluate Resumes" button block, lines 145-164) -/

/-- Python truthiness of the value bound to `resume_text` (either `None`
from the `except` branch or a string): falsy iff `None` or `""`. -/
def truthyText : Option String → Bool
  | none => false
  | some s => !(s == "")

/-- The loop body over `uploaded_files` (lines 150-161). Returns the
`new_results` list together with the list of files for which
`get_jd_match_from_gemini` was invoked (in processing order). The scorer is
an oracle `jd → resumeText → Option CandidateAnalysis`; `none` models the
`except` branch of `get_jd_match_from_gemini` returning `None`. -/
def processFiles (ops : ExtractOps) (scorer : String → String → Option CandidateAnalysis)
    (jd : String) : List UploadedFile → List ScreeningResult × List UploadedFile
  | [] => ([], [])
  | f :: rest =>
    let tail := processFiles ops scorer jd rest
    match get_file_text ops f with
    | some t =>
      if t = "" then
        tail
      else
        match scorer jd t with
        | some a => (⟨f.name, a⟩ :: tail.1, f :: tail.2)
        | none => (tail.1, f :: tail.2)
    | none => tail

/-- What a single file contributes to `new_results`: a `ScreeningResult`
exactly when extraction returns truthy text and the scorer succeeds. -/
def fileOutcome (ops : ExtractOps) (scorer : String → String → Option CandidateAnalysis)
    (jd : String) (f : UploadedFile) : Option ScreeningResult :=
  match get_file_text ops f with
  | some t =>
    if t = "" then none
    else (scorer jd t).map (fun a => ⟨f.name, a⟩)
  | none => none

/-- The whole button handler (lines 145-164): if `job_description` and
`uploaded_files` are both truthy, `st.session_state.results` is replaced by
`new_results`; otherwise a validation warning is shown and the state is
untouched. Returns the value of `st.session_state.results` afterwards. -/
def evaluateButton (ops : ExtractOps) (scorer : String → String → Option CandidateAnalysis)
    (jd : String) (files : List UploadedFile)
    (oldResults : List ScreeningResult) : List ScreeningResult :=
  if jd ≠ "" ∧ files ≠ [] then
    (processFiles ops scorer jd files).1
  else
    oldResults

/-! ## Filtering, sorting, export (lines 168-229) -/

/-- `result['analysis'].get('location', '')`. -/
def locationOf (r : ScreeningResult) : String :=
  r.analysis.location.getD ""

/-- `result['analysis'].get('score', 0)`. -/
def scoreOf (r : ScreeningResult) : Int :=
  r.analysis.score.getD 0

/-- The filtering logic (lines 179-190): when `target_location` is truthy
(non-empty), keep results whose lower-cased location contains the
lower-cased target as a substring; then unconditionally keep results with
`score >= min_score`. -/
def filter_results (results : List ScreeningResult) (target_location : String)
    (min_score : Int) : List ScreeningResult :=
  let afterLocation :=
    if target_location ≠ "" then
      results.filter (fun r => pyInStr (pyLower target_location) (pyLower (locationOf r)))
    else
      results
  afterLocation.filter (fun r => decide (min_score ≤ scoreOf r))

/-- The comparison used to embed line 192: Python's
`sorted(..., key=score, reverse=True)` is a stable sort that puts `a`
before `b` when `score b ≤ score a`. -/
def scoreGE (a b : ScreeningResult) : Bool :=
  decide (scoreOf b ≤ scoreOf a)

/-- Line 192: `sorted_results`, a stable descending sort by score, embedded
with the stable `List.mergeSort`. -/
def sorted_results (l : List ScreeningResult) : List ScreeningResult :=
  l.mergeSort scoreGE

/-- One row of `export_data` (lines 200-207). -/
structure ExportRow where
  rowName : String
  rowEmail : String
  rowPhone : String
  rowScore : Int
  rowLocation : String
  rowFilename : String
deriving DecidableEq, Repr

/-- The row built from one result (lines 200-207): `.get` defaults are
`'N/A'` for the string fields and `0` for the score. -/
def exportRow (r : ScreeningResult) : ExportRow :=
  ⟨r.analysis.name.getD "N/A",
   r.analysis.email.getD "N/A",
   r.analysis.phone.getD "N/A",
   r.analysis.score.getD 0,
   r.analysis.location.getD "N/A",
   r.filename⟩

/-- The `export_data` loop (lines 197-207): one row per displayed result,
in display order. -/
def export_data (l : List ScreeningResult) : List ExportRow :=
  l.map exportRow

/-- The view pass (lines 168-229) as a state transformer: it reads
`st.session_state.results`, derives the filtered/sorted display list and the
export rows, and writes nothing back. `state` is the value of
`st.session_state.results` after the pass. -/
structure ViewOutput where
  state : List ScreeningResult
  displayed : List ScreeningResult
  exported : List ExportRow
deriving DecidableEq, Repr

/-- Run the view pass on the session state with the current control values.
The source only binds fresh lists (`filtered_results`, `sorted_results`,
`export_data`) from comprehensions over the state; it never assigns to
`st.session_state.results`. -/
def renderView (results : List ScreeningResult) (target_location : String)
    (min_score : Int) : ViewOutput :=
  let s := sorted_results (filter_results results target_location min_score)
  ⟨results, s, export_data s⟩

/-- One control change followed by a view recomputation. -/
def applyViewPass (st : List ScreeningResult) (c : String × Int) : List ScreeningResult :=
  (renderView st c.1 c.2).state

/-! ## Startup and page layout (lines 116-131) -/

/-- The visible elements the script can emit, tagged by whether they are
interactive input controls. -/
inductive UIElement
  | pageTitle (s : String)
  | markdownText (s : String)
  | divider
  | errorBox (s : String)
  | warningBox (s : String)
  | infoBox (s : String)
  | textArea (label : String)
  | fileUploader (types : List String)
  | button (label : String)
  | textInput (label : String)
  | numberInput (label : String)
  | downloadButton (label : String)
deriving DecidableEq, Repr

/-- Which elements accept user interaction. -/
def interactiveElement : UIElement → Bool
  | .textArea _ => true
  | .fileUploader _ => true
  | .button _ => true
  | .textInput _ => true
  | .numberInput _ => true
  | .downloadButton _ => true
  | _ => false

/-- The elements emitted before the API-key check (lines 118-120): title,
tagline, divider — all static. -/
def preKeyElements : List UIElement :=
  [.pageTitle "📄 AI Resume Screener",
   .markdownText "Evaluate multiple resumes against a job description to find the best candidates.",
   .divider]

/-- The setup instruction shown when the key is missing (line 130). -/
def apiKeyErrorText : String :=
  "🚨 **API Key Not Found!** Please add your GOOGLE_API_KEY to the secrets.toml file."

/-- What a page render produced and whether `st.stop()` halted the script. -/
structure RenderOutcome where
  elements : List UIElement
  halted : Bool
deriving DecidableEq, Repr

/-- The script top level (lines 116-131): after the static header, look up
`GOOGLE_API_KEY` in `st.secrets`; on failure emit the setup error and stop
(nothing further renders); on success the rest of the page (`restRender`,
left abstract) renders. -/
def renderApp (secrets : String → Option String) (restRender : List UIElement) :
    RenderOutcome :=
  match secrets "GOOGLE_API_KEY" with
  | none => ⟨preKeyElements ++ [.errorBox apiKeyErrorText], true⟩
  | some _ => ⟨preKeyElements ++ restRender, false⟩

/-! ## Helper lemmas -/

/-- `dataContains` decides contiguous containment (`List.IsInfix`). -/
theorem dataContains_iff (needle : List Char) :
    ∀ hay, dataContains needle hay = true ↔ needle <:+: hay
  | [] => by
    simp [dataContains, List.isEmpty_iff, List.infix_nil]
  | c :: t => by
    rw [dataContains]
    simp [List.infix_cons_iff, dataContains_iff needle t, List.isPrefixOf_iff_prefix]

theorem scoreGE_trans : ∀ a b c, scoreGE a b → scoreGE b c → scoreGE a c := by
  intro a b c hab hbc
  simp only [scoreGE, decide_eq_true_eq] at *
  exact le_trans hbc hab

theorem scoreGE_total : ∀ a b, scoreGE a b || scoreGE b a := by
  intro a b
  simp only [scoreGE, Bool.or_eq_true, decide_eq_true_eq]
  exact le_total (scoreOf b) (scoreOf a)

/-- The displayed list is pairwise non-increasing in score. -/
theorem sorted_results_pairwise (l : List ScreeningResult) :
    (sorted_results l).Pairwise (fun a b => scoreOf b ≤ scoreOf a) := by
  have h := List.sorted_mergeSort scoreGE_trans scoreGE_total l
  exact h.imp (by intro a b hab; simpa [scoreGE] using hab)

/-- Stability of the sort: restricted to any fixed score, the sorted list
is the input list. -/
theorem sorted_results_stable (l : List ScreeningResult) (s : Int) :
    (sorted_results l).filter (fun r => decide (scoreOf r = s)) =
      l.filter (fun r => decide (scoreOf r = s)) := by
  set p : ScreeningResult → Bool := fun r => decide (scoreOf r = s) with hp
  have hsub : List.Sublist (l.filter p) l := List.filter_sublist l
  have hpw : (l.filter p).Pairwise (fun a b => scoreGE a b) := by
    apply List.pairwise_of_forall_mem_list
    intro a ha b hb
    have ha2 := (List.mem_filter.mp ha).2
    have hb2 := (List.mem_filter.mp hb).2
    simp only [hp, decide_eq_true_eq] at ha2 hb2
    simp [scoreGE, ha2, hb2]
  have h2 : List.Sublist (l.filter p) (l.mergeSort scoreGE) :=
    List.sublist_mergeSort scoreGE_trans scoreGE_total hpw hsub
  have h3 : (l.filter p).filter p = l.filter p := by
    simp [List.filter_filter]
  have h4 : List.Sublist (l.filter p) ((l.mergeSort scoreGE).filter p) := by
    have := h2.filter p
    rwa [h3] at this
  have h5 : ((l.mergeSort scoreGE).filter p).length = (l.filter p).length :=
    ((List.mergeSort_perm l scoreGE).filter p).length_eq
  exact (h4.eq_of_length h5.symm).symm

/-- The results component of the loop is the `filterMap` of per-file
outcomes, in upload order. -/
theorem processFiles_fst (ops : ExtractOps)
    (scorer : String → String → Option CandidateAnalysis) (jd : String) :
    ∀ files, (processFiles ops scorer jd files).1 =
      files.filterMap (fileOutcome ops scorer jd)
  | [] => rfl
  | f :: rest => by
    rw [List.filterMap_cons]
    cases hgt : get_file_text ops f with
    | none =>
      simp [processFiles, fileOutcome, hgt, processFiles_fst ops scorer jd rest]
    | some t =>
      by_cases ht : t = ""
      · simp [processFiles, fileOutcome, hgt, ht, processFiles_fst ops scorer jd rest]
      · cases hs : scorer jd t with
        | none =>
          simp [processFiles, fileOutcome, hgt, ht, hs, processFiles_fst ops scorer jd rest]
        | some a =>
          simp [processFiles, fileOutcome, hgt, ht, hs, processFiles_fst ops scorer jd rest]

/-- The scorer is invoked exactly on the files whose extraction result is
truthy, in upload order. -/
theorem processFiles_snd (ops : ExtractOps)
    (scorer : String → String → Option CandidateAnalysis) (jd : String) :
    ∀ files, (processFiles ops scorer jd files).2 =
      files.filter (fun f => truthyText (get_file_text ops f))
  | [] => rfl
  | f :: rest => by
    rw [List.filter_cons]
    cases hgt : get_file_text ops f with
    | none =>
      simp [processFiles, truthyText, hgt, processFiles_snd ops scorer jd rest]
    | some t =>
      by_cases ht : t = ""
      · simp [processFiles, truthyText, hgt, ht, processFiles_snd ops scorer jd rest]
      · cases hs : scorer jd t with
        | none =>
          simp [processFiles, truthyText, hgt, ht, hs, processFiles_snd ops scorer jd rest]
        | some a =>
          simp [processFiles, truthyText, hgt, ht, hs, processFiles_snd ops scorer jd rest]

/-! ## Sample data for witnesses -/

/-- A fully-populated analysis (score 90, location "Austin, TX"). -/
def sampleAnalysisA : CandidateAnalysis :=
  ⟨some "Alice", some "alice@mail.com", some "111-222", some 90, some "strong match",
   some "Austin, TX", some ["python", "sql"]⟩

/-- An analysis with missing email/phone (score 60, location "Hyderabad"). -/
def sampleAnalysisB : CandidateAnalysis :=
  ⟨some "Bob", none, none, some 60, some "weak match", some "Hyderabad", none⟩

/-- An analysis with a missing score and location. -/
def sampleAnalysisC : CandidateAnalysis :=
  ⟨some "Cara", some "cara@mail.com", none, none, some "middling", none, none⟩

def sampleA : ScreeningResult := ⟨"a.pdf", sampleAnalysisA⟩

def sampleB : ScreeningResult := ⟨"b.pdf", sampleAnalysisB⟩

def sampleC : ScreeningResult := ⟨"c.txt", sampleAnalysisC⟩

/-- A pdf upload. -/
def fileA : UploadedFile := ⟨"a.pdf", "application/pdf"⟩

/-- A txt upload whose decoded content is empty. -/
def emptyTxtFile : UploadedFile := ⟨"empty.txt", "text/plain"⟩

/-- An upload with an unsupported extension. -/
def csvFile : UploadedFile := ⟨"resume.csv", "text/csv"⟩

/-- A docx upload. -/
def docxFile : UploadedFile :=
  ⟨"resume.docx", "application/vnd.openxmlformats-officedocument.wordprocessingml.document"⟩

/-- Concrete extraction oracles: pdf pages and docx paragraphs parse, txt
decodes (to `""` for `empty.txt`), OCR errors out. -/
def sampleOps : ExtractOps :=
  ⟨fun _ => some ["page one text"],
   fun _ => some ["Hello"],
   fun f => if f.name = "empty.txt" then some "" else some "plain resume text",
   fun _ => none⟩

/-- A scorer oracle that always answers with `sampleAnalysisA`. -/
def sampleScorer : String → String → Option CandidateAnalysis :=
  fun _ _ => some sampleAnalysisA

/-! ## Claims -/

/-- C1: the filtered view keeps a result iff (the location filter is empty,
or its lower-cased value is a substring of the result's lower-cased
location) and the result's score is at least `min_score`; in particular a
result scoring below `min_score` is excluded regardless of location. -/
theorem c1_filter_characterization (results : List ScreeningResult)
    (target_location : String) (min_score : Int) (r : ScreeningResult) :
    (r ∈ filter_results results target_location min_score ↔
      r ∈ results ∧
        (target_location = "" ∨
          (pyLower target_location).data <:+: (pyLower (locationOf r)).data) ∧
        min_score ≤ scoreOf r) ∧
    (scoreOf r < min_score → r ∉ filter_results results target_location min_score) := by
  have hmain : r ∈ filter_results results target_location min_score ↔
      r ∈ results ∧
        (target_location = "" ∨
          (pyLower target_location).data <:+: (pyLower (locationOf r)).data) ∧
        min_score ≤ scoreOf r := by
    unfold filter_results
    by_cases h : target_location = ""
    · simp [h, List.mem_filter]
    · simp only [h, ne_eq, not_false_eq_true, if_pos, List.mem_filter, pyInStr,
        dataContains_iff, decide_eq_true_eq, false_or, and_assoc]
  refine ⟨hmain, fun hlt hmem => ?_⟩
  have := (hmain.mp hmem).2.2
  omega

/-- C1 witness: in the sample set, the score-60 result is excluded at
threshold 70 even with no location filter. -/
theorem c1_filter_characterization_witness :
    scoreOf sampleB < 70 ∧ sampleB ∉ filter_results [sampleA, sampleB, sampleC] "" 70 :=
  ⟨by decide,
   (c1_filter_characterization [sampleA, sampleB, sampleC] "" 70 sampleB).2 (by decide)⟩

/-- C2: the displayed sequence is a permutation of the filtered sequence,
pairwise non-increasing in score; the sort is stable (restricted to any
fixed score it is the filtered sequence unchanged) and the filtered
sequence is an order-preserving sublist of the ResultSet. -/
theorem c2_sorted_descending_stable (results : List ScreeningResult)
    (target_location : String) (min_score : Int) :
    (sorted_results (filter_results results target_location min_score)).Pairwise
        (fun a b => scoreOf b ≤ scoreOf a) ∧
    (sorted_results (filter_results results target_location min_score)).Perm
        (filter_results results target_location min_score) ∧
    (∀ s : Int,
      (sorted_results (filter_results results target_location min_score)).filter
          (fun r => decide (scoreOf r = s)) =
        (filter_results results target_location min_score).filter
          (fun r => decide (scoreOf r = s))) ∧
    List.Sublist (filter_results results target_location min_score) results := by
  refine ⟨sorted_results_pairwise _, List.mergeSort_perm _ _,
    fun s => sorted_results_stable _ s, ?_⟩
  unfold filter_results
  by_cases h : target_location = ""
  · simp only [h]
    simp only [ne_eq, not_true_eq_false, if_neg, ite_false]
    exact List.filter_sublist results
  · simp only [h, ne_eq, not_false_eq_true, if_pos]
    exact (List.filter_sublist _).trans (List.filter_sublist _)

/-- C3: with a non-empty job description and file list, the new ResultSet
is exactly the per-file outcomes of the uploads in order (replacing any old
state); the scorer is called exactly on files with truthy extracted text,
so a file whose extraction fails is never scored and contributes nothing;
a file whose scoring fails contributes nothing. -/
theorem c3_evaluation_run (ops : ExtractOps)
    (scorer : String → String → Option CandidateAnalysis)
    (jd : String) (files : List UploadedFile) (old : List ScreeningResult)
    (hjd : jd ≠ "") (hfiles : files ≠ []) :
    evaluateButton ops scorer jd files old =
        files.filterMap (fileOutcome ops scorer jd) ∧
    (processFiles ops scorer jd files).2 =
        files.filter (fun f => truthyText (get_file_text ops f)) ∧
    (∀ f : UploadedFile, get_file_text ops f = none →
        f ∉ (processFiles ops scorer jd files).2 ∧ fileOutcome ops scorer jd f = none) ∧
    (∀ f : UploadedFile, ∀ t, get_file_text ops f = some t → t ≠ "" →
        scorer jd t = none → fileOutcome ops scorer jd f = none) := by
  refine ⟨?_, processFiles_snd ops scorer jd files, ?_, ?_⟩
  · rw [evaluateButton, if_pos ⟨hjd, hfiles⟩]
    exact processFiles_fst ops scorer jd files
  · intro f hf
    constructor
    · rw [processFiles_snd]
      simp [List.mem_filter, truthyText, hf]
    · simp [fileOutcome, hf]
  · intro f t ht htne hs
    simp [fileOutcome, ht, htne, hs]

/-- C3 witness: a one-file run with concrete oracles replaces an old
one-element state with the loop's outcome. -/
theorem c3_evaluation_run_witness :
    evaluateButton sampleOps sampleScorer "need python" [fileA] [sampleC] =
      List.filterMap (fileOutcome sampleOps sampleScorer "need python") [fileA] :=
  (c3_evaluation_run sampleOps sampleScorer "need python" [fileA] [sampleC]
    (by decide) (by decide)).1

/-- C4: the export has one row per displayed result in display order, with
the six columns taken from the analysis, missing strings rendered "N/A"
and a missing score rendered 0. -/
theorem c4_export_rows (l : List ScreeningResult) (i : Nat) (r : ScreeningResult)
    (h : l[i]? = some r) :
    (export_data l).length = l.length ∧
    (export_data l)[i]? = some
      ⟨r.analysis.name.getD "N/A", r.analysis.email.getD "N/A",
       r.analysis.phone.getD "N/A", r.analysis.score.getD 0,
       r.analysis.location.getD "N/A", r.filename⟩ := by
  refine ⟨List.length_map l exportRow, ?_⟩
  rw [export_data, List.getElem?_map, h]
  rfl

/-- C4 witness: the row exported for the sample result with missing
email/phone carries the "N/A" defaults, and the one for the missing score
carries 0. -/
theorem c4_export_rows_witness :
    (export_data [sampleB, sampleC]).length = 2 ∧
    (export_data [sampleB, sampleC])[0]? =
      some ⟨"Bob", "N/A", "N/A", 60, "Hyderabad", "b.pdf"⟩ ∧
    (export_data [sampleB, sampleC])[1]? =
      some ⟨"Cara", "cara@mail.com", "N/A", 0, "N/A", "c.txt"⟩ :=
  ⟨(c4_export_rows [sampleB, sampleC] 0 sampleB rfl).1,
   (c4_export_rows [sampleB, sampleC] 0 sampleB rfl).2,
   (c4_export_rows [sampleB, sampleC] 1 sampleC rfl).2⟩

/-- C5: an evaluate request with an empty job description or no files
leaves the ResultSet unchanged. -/
theorem c5_validation_no_change (ops : ExtractOps)
    (scorer : String → String → Option CandidateAnalysis)
    (jd : String) (files : List UploadedFile) (old : List ScreeningResult)
    (h : jd = "" ∨ files = []) :
    evaluateButton ops scorer jd files old = old := by
  unfold evaluateButton
  rcases h with h | h <;> simp [h]

/-- C5 witness: an empty job description leaves a concrete old state as is. -/
theorem c5_validation_no_change_witness :
    evaluateButton sampleOps sampleScorer "" [fileA] [sampleA] = [sampleA] :=
  c5_validation_no_change sampleOps sampleScorer "" [fileA] [sampleA] (Or.inl rfl)

/-- C6 counterexample: for the unsupported extension "csv",
`get_file_text` does not produce a failure (`none`, the `except` branch);
it silently falls through and returns the empty string. -/
theorem c6_counterexample :
    fileExtension csvFile.name = "csv" ∧
    ("csv" ∉ (["pdf", "docx", "txt", "png", "jpg", "jpeg"] : List String)) ∧
    get_file_text sampleOps csvFile = some "" ∧
    get_file_text sampleOps csvFile ≠ none := by
  refine ⟨by decide, by decide, by decide, by decide⟩

/-- C6 (amended): a file with an unsupported extension yields the empty
string (not an explicit failure); the empty text is falsy, so the file is
never scored, contributes no ScreeningResult, and its presence in the
upload list leaves the produced ResultSet unchanged. -/
theorem c6_unsupported_extension (ops : ExtractOps)
    (scorer : String → String → Option CandidateAnalysis) (jd : String)
    (f : UploadedFile)
    (h : fileExtension f.name ∉ (["pdf", "docx", "txt", "png", "jpg", "jpeg"] : List String)) :
    get_file_text ops f = some "" ∧
    fileOutcome ops scorer jd f = none ∧
    (∀ files, f ∉ (processFiles ops scorer jd files).2) ∧
    (∀ files, (processFiles ops scorer jd (f :: files)).1 =
      (processFiles ops scorer jd files).1) := by
  simp only [List.mem_cons, List.mem_singleton, not_or] at h
  obtain ⟨h1, h2, h3, h4, h5, h6⟩ := h
  have hgt : get_file_text ops f = some "" := by
    simp only [get_file_text]
    simp [h1, h2, h3, h4, h5, h6]
  refine ⟨hgt, ?_, ?_, ?_⟩
  · simp [fileOutcome, hgt]
  · intro files
    rw [processFiles_snd]
    simp [List.mem_filter, truthyText, hgt]
  · intro files
    simp [processFiles, hgt]

/-- C6 witness: the csv upload extracts to `""`, is never scored and
contributes nothing. -/
theorem c6_unsupported_extension_witness :
    get_file_text sampleOps csvFile = some "" ∧
    fileOutcome sampleOps sampleScorer "need python" csvFile = none ∧
    csvFile ∉ (processFiles sampleOps sampleScorer "need python" [csvFile, fileA]).2 :=
  ⟨(c6_unsupported_extension sampleOps sampleScorer "need python" csvFile (by decide)).1,
   (c6_unsupported_extension sampleOps sampleScorer "need python" csvFile (by decide)).2.1,
   (c6_unsupported_extension sampleOps sampleScorer "need python" csvFile
      (by decide)).2.2.1 [csvFile, fileA]⟩

/-- The spec's wording of the docx extraction: paragraph texts joined with
a newline as a separator (no trailing newline). -/
def docxSpecJoin : List String → String
  | [] => ""
  | [p] => p
  | p :: q :: r => p ++ "\n" ++ docxSpecJoin (q :: r)

/-- Newline-terminated concatenation equals separator-join plus one
trailing newline, for a non-empty paragraph list. -/
theorem join_terminated (p : String) : ∀ ps : List String,
    String.join ((p :: ps).map (fun q => q ++ "\n")) = docxSpecJoin (p :: ps) ++ "\n"
  | [] => by
    apply String.ext
    simp [docxSpecJoin]
  | q :: r => by
    have ih := congrArg String.data (join_terminated q r)
    apply String.ext
    simp only [List.map_cons, String.data_join, List.flatten, String.data_append] at ih ⊢
    simp [docxSpecJoin, String.data_append] at *
    simp [ih]

/-- C7 counterexample: a docx with the single paragraph "Hello" extracts to
"Hello\n" (paragraph followed by a newline), not to the newline-separated
join "Hello" that the claim describes. -/
theorem c7_counterexample :
    (sampleOps.docxParagraphs docxFile = some ["Hello"]) ∧
    get_file_text sampleOps docxFile = some "Hello\n" ∧
    docxSpecJoin ["Hello"] = "Hello" ∧
    get_file_text sampleOps docxFile ≠ some (docxSpecJoin ["Hello"]) := by
  refine ⟨by decide, by decide, by decide, by decide⟩

/-- C7 (amended): the docx extraction is the paragraph texts concatenated
in document order, each paragraph followed by a newline; for a non-empty
paragraph list this is the newline-separated join plus a trailing
newline. -/
theorem c7_docx_terminated (ops : ExtractOps) (f : UploadedFile) (paras : List String)
    (hext : fileExtension f.name = "docx")
    (hp : ops.docxParagraphs f = some paras) :
    get_file_text ops f = some (String.join (paras.map (fun q => q ++ "\n"))) ∧
    (paras ≠ [] → get_file_text ops f = some (docxSpecJoin paras ++ "\n")) := by
  have hgt : get_file_text ops f = some (String.join (paras.map (fun q => q ++ "\n"))) := by
    simp [get_file_text, hext, hp]
  refine ⟨hgt, fun hne => ?_⟩
  cases paras with
  | nil => exact absurd rfl hne
  | cons p ps => rw [hgt, join_terminated]

/-- C7 witness: the one-paragraph docx extracts to the separator join plus
a trailing newline. -/
theorem c7_docx_terminated_witness :
    get_file_text sampleOps docxFile = some (docxSpecJoin ["Hello"] ++ "\n") :=
  (c7_docx_terminated sampleOps docxFile ["Hello"] (by decide) rfl).2 (by decide)

/-- C8: when `GOOGLE_API_KEY` is absent from `st.secrets`, the script
halts at the key check: the setup instruction is shown and nothing on the
page is an interactive control. -/
theorem c8_missing_key_halts (secrets : String → Option String)
    (restRender : List UIElement)
    (h : secrets "GOOGLE_API_KEY" = none) :
    (renderApp secrets restRender).halted = true ∧
    UIElement.errorBox apiKeyErrorText ∈ (renderApp secrets restRender).elements ∧
    (∀ e ∈ (renderApp secrets restRender).elements, interactiveElement e = false) := by
  unfold renderApp
  rw [h]
  refine ⟨rfl, by simp [preKeyElements], ?_⟩
  intro e he
  simp only [preKeyElements, List.mem_append, List.mem_cons,
    List.mem_singleton, List.not_mem_nil, or_false] at he
  rcases he with (h1 | h1 | h1) | h1 <;> simp [h1, interactiveElement]

/-- C8 witness: with an empty secret store, the script halts even though
the rest of the page would have contained interactive controls. -/
theorem c8_missing_key_halts_witness :
    (renderApp (fun _ => none)
      [UIElement.textArea "Paste the Job Description"]).halted = true ∧
    (∀ e ∈ (renderApp (fun _ => none)
        [UIElement.textArea "Paste the Job Description"]).elements,
      interactiveElement e = false) :=
  ⟨(c8_missing_key_halts (fun _ => none) _ rfl).1,
   (c8_missing_key_halts (fun _ => none) _ rfl).2.2⟩

/-- C9: the view pass never writes to `st.session_state.results`: one pass
returns the state unchanged for any control values, and any sequence of
control changes leaves it identical. -/
theorem c9_view_pure (results : List ScreeningResult)
    (controls : List (String × Int)) :
    (∀ target_location min_score,
      (renderView results target_location min_score).state = results) ∧
    controls.foldl applyViewPass results = results := by
  refine ⟨fun _ _ => rfl, ?_⟩
  induction controls generalizing results with
  | nil => rfl
  | cons c cs ih => exact ih results

/-- C10: a file whose extraction succeeds with empty text is treated like
an extraction failure: it is never scored, contributes no ScreeningResult,
and its presence in the upload list leaves the produced ResultSet
unchanged. -/
theorem c10_empty_text_skipped (ops : ExtractOps)
    (scorer : String → String → Option CandidateAnalysis) (jd : String)
    (f : UploadedFile)
    (h : get_file_text ops f = some "") :
    fileOutcome ops scorer jd f = none ∧
    (∀ files, f ∉ (processFiles ops scorer jd files).2) ∧
    (∀ files, (processFiles ops scorer jd (f :: files)).1 =
      (processFiles ops scorer jd files).1) := by
  refine ⟨by simp [fileOutcome, h], ?_, ?_⟩
  · intro files
    rw [processFiles_snd]
    simp [List.mem_filter, truthyText, h]
  · intro files
    simp [processFiles, h]

/-- C10 witness: the empty txt upload decodes to `""`, is never scored and
contributes nothing when prepended to a batch. -/
theorem c10_empty_text_skipped_witness :
    fileOutcome sampleOps sampleScorer "need python" emptyTxtFile = none ∧
    (processFiles sampleOps sampleScorer "need python" [emptyTxtFile, fileA]).1 =
      (processFiles sampleOps sampleScorer "need python" [fileA]).1 :=
  ⟨(c10_empty_text_skipped sampleOps sampleScorer "need python" emptyTxtFile (by decide)).1,
   (c10_empty_text_skipped sampleOps sampleScorer "need python" emptyTxtFile
      (by decide)).2.2 [fileA]⟩

end ResumeScreener
